import Mathlib

/-
Verification development for the pgx sql_entity_graph subsystem:
the return-shape classifier (pg_extern/returning.rs), the DDL renderer
(pg_extern/entity/mod.rs) and the trigger generator (pg_trigger/mod.rs),
shallowly embedded in Lean.
-/

/- ## Part 1: a shallow embedding of the syn type AST subset consumed by
   the return-shape classifier in pg_extern/returning.rs. -/

mutual

/-- Subset of syn::Type inspected by the classifier: impl-trait, dyn-trait
(trait object), path types, references, tuples, macro invocations in type
position, and a catch-all for every other syn::Type constructor (Array,
Ptr, BareFn, ...), which the classifier rejects. -/
inductive SynType where
  | implTrait (bounds : List TypeParamBound)
  | traitObject (bounds : List TypeParamBound)
  | typePath (segments : List PathSegment)
  | reference (lifetime : Option String) (elem : SynType)
  | tuple (elems : List SynType)
  | macCall (pathIdents : List String) (body : MacBody)
  | otherType (tag : String)

/-- Subset of syn::TypeParamBound: a trait bound (with its path), a
lifetime bound, or anything else. -/
inductive TypeParamBound where
  | traitB (path : List PathSegment)
  | lifetimeB (ident : String)
  | otherB

/-- A syn::PathSegment: an identifier plus path arguments. -/
inductive PathSegment where
  | mk (ident : String) (arguments : PathArguments)

/-- The syn::PathArguments of a path segment. -/
inductive PathArguments where
  | nonePA
  | angleBracketed (args : List GenericArgument)
  | parenthesized

/-- Subset of syn::GenericArgument: lifetimes, types, associated-type
bindings (as in Iterator with an Item binding), and a catch-all. -/
inductive GenericArgument where
  | lifetimeArg (ident : String)
  | typeArg (ty : SynType)
  | binding (ident : String) (ty : SynType)
  | otherArg

/-- The token body of a macro invocation in type position, modelled as the
result of tokenizing it: a body that parses as a NameMacro (an identifier,
a comma and a type, as produced by the name macro), a body that parses as
a single syn::Expr (as produced by the composite_type macro), or a body
that parses as neither. -/
inductive MacBody where
  | nameBody (ident : String) (ty : SynType)
  | exprBody (sqlExpr : String)
  | badBody

end

/-- Ident of a path segment. -/
def segIdent : PathSegment → String
  | .mk ident _ => ident

/-- Arguments of a path segment. -/
def segArguments : PathSegment → PathArguments
  | .mk _ args => args

/- Lifetime anonymization.  The classifier calls anonymonize_lifetimes /
anonymonize_lifetimes_in_type_path (declared in the crate root, outside
the sources at hand) on types before matching on them. -/

mutual

/-- Modelled from the spec: anonymonize_lifetimes is not among the given
sources (it lives in the pgx-utils crate root); per the spec, return types
are processed "with lifetime annotations normalized to a static
placeholder".  Modelled as the recursive replacement of every lifetime
identifier by the placeholder "static"; identifiers and structure are
untouched. -/
def anonType : SynType → SynType
  | .implTrait bounds => .implTrait (anonBoundList bounds)
  | .traitObject bounds => .traitObject (anonBoundList bounds)
  | .typePath segs => .typePath (anonSegList segs)
  | .reference lt elem => .reference (lt.map (fun _ => "static")) (anonType elem)
  | .tuple elems => .tuple (anonTypeList elems)
  | .macCall p body => .macCall p (anonMacBody body)
  | .otherType tag => .otherType tag

/-- Pointwise anonType over a list. -/
def anonTypeList : List SynType → List SynType
  | [] => []
  | t :: ts => anonType t :: anonTypeList ts

/-- Lifetime anonymization on a type-parameter bound. -/
def anonBound : TypeParamBound → TypeParamBound
  | .traitB p => .traitB (anonSegList p)
  | .lifetimeB _ => .lifetimeB "static"
  | .otherB => .otherB

/-- Pointwise anonBound over a list. -/
def anonBoundList : List TypeParamBound → List TypeParamBound
  | [] => []
  | b :: bs => anonBound b :: anonBoundList bs

/-- Lifetime anonymization on a path segment (the identifier is kept). -/
def anonSeg : PathSegment → PathSegment
  | .mk ident args => .mk ident (anonPathArguments args)

/-- Pointwise anonSeg over a list. -/
def anonSegList : List PathSegment → List PathSegment
  | [] => []
  | s :: ss => anonSeg s :: anonSegList ss

/-- Lifetime anonymization inside path arguments. -/
def anonPathArguments : PathArguments → PathArguments
  | .nonePA => .nonePA
  | .angleBracketed args => .angleBracketed (anonGenArgList args)
  | .parenthesized => .parenthesized

/-- Lifetime anonymization on a generic argument. -/
def anonGenArg : GenericArgument → GenericArgument
  | .lifetimeArg _ => .lifetimeArg "static"
  | .typeArg ty => .typeArg (anonType ty)
  | .binding i ty => .binding i (anonType ty)
  | .otherArg => .otherArg

/-- Pointwise anonGenArg over a list. -/
def anonGenArgList : List GenericArgument → List GenericArgument
  | [] => []
  | a :: as_ => anonGenArg a :: anonGenArgList as_

/-- Lifetime anonymization inside a macro body. -/
def anonMacBody : MacBody → MacBody
  | .nameBody i ty => .nameBody i (anonType ty)
  | .exprBody e => .exprBody e
  | .badBody => .badBody

end

/- ## Part 2: the Returning classifier (pg_extern/returning.rs). -/

/-- One item of Returning::Iterated, mirroring ReturningIteratedItem:
a type, an optional column name, an optional composite-type sql
expression. -/
structure ReturningIteratedItem where
  ty : SynType
  name : Option String
  sql : Option String

/-- The classifier output, mirroring enum Returning in returning.rs. -/
inductive Returning where
  | noneRet
  | tyRet (ty : SynType) (sql : Option String)
  | setOfRet (ty : List PathSegment) (sql : Option String)
  | iteratedRet (items : List ReturningIteratedItem)
  | triggerRet

/-- How classification fails: panicF models a Rust panic (unwrap, expect,
or an unimplemented arm); errF models the eyre error returned for an
unknown return type. -/
inductive ClassifyFailure where
  | panicF (msg : String)
  | errF (msg : String)

/-- The fixed row-handle type substituted by the classifier for a
composite_type macro: the PgHeapTuple type quoted in returning.rs. -/
def heapTupleRowType : SynType :=
  .typePath
    [ .mk "pgx" .nonePA,
      .mk "PgHeapTuple"
        (.angleBracketed
          [ .lifetimeArg "_",
            .typeArg (.implTrait
              [ .traitB
                  [ .mk "WhoAllocated"
                      (.angleBracketed
                        [ .typeArg (.typePath
                            [ .mk "pgx" .nonePA, .mk "pg_sys" .nonePA,
                              .mk "HeapTupleData" .nonePA ]) ]) ] ]) ]) ]

/-- Sql extraction performed inside NameMacro::parse in returning.rs:
when the named type is itself a macro whose last path identifier is
composite_type, its body is parsed as an expression (panicking on a parse
failure); a macro with any other identifier is an unimplemented arm; a
non-macro type has no sql. -/
def nameMacroSql : SynType → Except ClassifyFailure (Option String)
  | .macCall pathIdents body =>
    match pathIdents.getLast? with
    | none => .error (.panicF "called Option::unwrap on a None value")
    | some archetype =>
      if archetype = "composite_type" then
        match body with
        | .exprBody e => .ok (some e)
        | _ => .error (.panicF "Failed to parse composite_type!()")
      else
        .error (.panicF "Do not support anything other than name!() and composite_type!()")
  | _ => .ok none

/-- One element of a returned tuple, as handled inside
Returning::parse_type_tuple once the element has been
lifetime-anonymized: a name macro yields a named item, a composite_type
macro yields the row-handle type with the parsed sql, any other macro is
an unimplemented arm, and every other type yields an unnamed item. -/
def parseTupleItemCore : SynType → Except ClassifyFailure ReturningIteratedItem
  | .macCall pathIdents body =>
    match pathIdents.getLast? with
    | none => .error (.panicF "called Option::unwrap on a None value")
    | some archetype =>
      if archetype = "name" then
        match body with
        | .nameBody ident ty =>
          match nameMacroSql ty with
          | .error f => .error f
          | .ok sql => .ok { ty := ty, name := some ident, sql := sql }
        | _ => .error (.panicF "Failed to parse named!()")
      else if archetype = "composite_type" then
        match body with
        | .exprBody sql => .ok { ty := heapTupleRowType, name := none, sql := some sql }
        | _ => .error (.panicF "Failed to parse composite_type!()")
      else
        .error (.panicF "Do not support anything other than name!() and composite_type!()")
  | ty => .ok { ty := ty, name := none, sql := none }

/-- One element of a returned tuple: the element is lifetime-anonymized
first, as in the loop body of Returning::parse_type_tuple. -/
def parseTupleItem (elem : SynType) : Except ClassifyFailure ReturningIteratedItem :=
  parseTupleItemCore (anonType elem)

/-- Item collection of Returning::parse_type_tuple over the tuple
elements, in order. -/
def parseTupleItems : List SynType → Except ClassifyFailure (List ReturningIteratedItem)
  | [] => .ok []
  | e :: es =>
    match parseTupleItem e with
    | .error f => .error f
    | .ok item =>
      match parseTupleItems es with
      | .error f => .error f
      | .ok rest => .ok (item :: rest)

/-- Returning::parse_type_tuple: classify a tuple type as Iterated with
one item per element. -/
def parse_type_tuple (elems : List SynType) : Except ClassifyFailure Returning :=
  match parseTupleItems elems with
  | .error f => .error f
  | .ok items => .ok (.iteratedRet items)

/-- Returning::parse_trait_bound: only an Iterator bound with an
angle-bracketed first argument that is an associated-type binding is
supported; the binding type is dispatched to tuple (Iterated), path
(SetOf) or reference-to-path (SetOf); every other shape is an
unimplemented arm (a panic). -/
def parse_trait_bound (path : List PathSegment) : Except ClassifyFailure Returning :=
  match path.getLast? with
  | none => .error (.panicF "called Option::unwrap on a None value")
  | some seg =>
    if segIdent seg = "Iterator" then
      match segArguments seg with
      | .angleBracketed gargs =>
        match gargs.head? with
        | none => .error (.panicF "called Option::unwrap on a None value")
        | some (.binding _ bty) =>
          match bty with
          | .tuple tupleElems => parse_type_tuple tupleElems
          | .typePath p => .ok (.setOfRet (anonSegList p) none)
          | .reference _ elem =>
            match elem with
            | .typePath p => .ok (.setOfRet (anonSegList p) none)
            | _ => .error (.panicF "Expected path")
          | _ => .error (.panicF "Only iters with tuples")
        | some _ => .error (.panicF "not implemented")
      | _ => .error (.panicF "not implemented")
    else .error (.panicF "not implemented")

/-- Returning::parse_impl_trait: dispatch on the first bound of the impl
type; a trait bound goes to parse_trait_bound, any other bound kind
silently yields Returning::None; an empty bound list is an unwrap
panic. -/
def parse_impl_trait (bounds : List TypeParamBound) : Except ClassifyFailure Returning :=
  match bounds.head? with
  | none => .error (.panicF "called Option::unwrap on a None value")
  | some (.traitB p) => parse_trait_bound p
  | some _ => .ok .noneRet

/-- Returning::parse_dyn_trait: same dispatch as parse_impl_trait, on a
trait object. -/
def parse_dyn_trait (bounds : List TypeParamBound) : Except ClassifyFailure Returning :=
  match bounds.head? with
  | none => .error (.panicF "called Option::unwrap on a None value")
  | some (.traitB p) => parse_trait_bound p
  | some _ => .ok .noneRet

/-- Returning::parse_type_macro: only a composite_type macro is
supported, yielding Type with the row-handle type and the parsed sql;
any other macro is an unimplemented arm. -/
def parse_type_macro (pathIdents : List String) (body : MacBody) :
    Except ClassifyFailure Returning :=
  match pathIdents.getLast? with
  | none => .error (.panicF "called Option::unwrap on a None value")
  | some archetype =>
    if archetype = "composite_type" then
      match body with
      | .exprBody sql => .ok (.tyRet heapTupleRowType (some sql))
      | _ => .error (.panicF "Failed to parse composite_type!()")
    else
      .error (.panicF "Do not support anything other than composite_type!()")

/-- State threaded through the segment scan of the syn::Type::Path arm of
the classifier: the four identifier flags and the inner classification
found under an Option or Box wrapper, if any. -/
structure PathScanState where
  saw_pg_sys : Bool
  saw_datum : Bool
  saw_option : Bool
  saw_box : Bool
  maybe_inner : Option Returning

/-- Initial scan state. -/
def initScanState : PathScanState :=
  { saw_pg_sys := false, saw_datum := false, saw_option := false,
    saw_box := false, maybe_inner := none }

/-- The per-segment loop of the syn::Type::Path arm: update the
identifier flags from the current segment, and once an Option or Box
identifier has been seen, look at the current segment's first
angle-bracketed argument; an impl-trait or dyn-trait argument is
classified recursively and recorded as the inner classification (a panic
inside that classification propagates). -/
def scanSegments : List PathSegment → PathScanState →
    Except ClassifyFailure PathScanState
  | [], st => .ok st
  | seg :: rest, st =>
    let ident := segIdent seg
    let st1 : PathScanState :=
      { st with
        saw_pg_sys := st.saw_pg_sys || ident = "pg_sys",
        saw_datum := st.saw_datum || ident = "Datum",
        saw_option := st.saw_option || ident = "Option",
        saw_box := st.saw_box || ident = "Box" }
    if st1.saw_option || st1.saw_box then
      match segArguments seg with
      | .angleBracketed gargs =>
        match gargs.head? with
        | some (.typeArg (.implTrait bounds)) =>
          match parse_impl_trait bounds with
          | .error f => .error f
          | .ok r => scanSegments rest { st1 with maybe_inner := some r }
        | some (.typeArg (.traitObject bounds)) =>
          match parse_dyn_trait bounds with
          | .error f => .error f
          | .ok r => scanSegments rest { st1 with maybe_inner := some r }
        | _ => scanSegments rest st1
      | _ => scanSegments rest st1
    else scanSegments rest st1

/-- The lifetime-to-static rewriting performed on the kept type path in
the final arm of the syn::Type::Path case: only lifetime arguments inside
each top-level segment's angle brackets are renamed to static. -/
def staticizeSeg : PathSegment → PathSegment
  | .mk ident args =>
    .mk ident
      (match args with
       | .angleBracketed gargs =>
         .angleBracketed
           (gargs.map (fun a =>
             match a with
             | .lifetimeArg _ => .lifetimeArg "static"
             | other => other))
       | other => other)

/-- The syn::Type::Path arm of the classifier: scan the segments, then
classify as Trigger when a Datum identifier was seen together with a
pg_sys identifier (or stand-alone in a one-segment path), else return the
inner classification found under an Option or Box wrapper, else a plain
Type with lifetimes staticized. -/
def classifyPath (segments : List PathSegment) : Except ClassifyFailure Returning :=
  match scanSegments segments initScanState with
  | .error f => .error f
  | .ok st =>
    if (st.saw_datum && st.saw_pg_sys) || (st.saw_datum && segments.length = 1) then
      .ok .triggerRet
    else
      match st.maybe_inner with
      | some r => .ok r
      | none => .ok (.tyRet (.typePath (segments.map staticizeSeg)) none)

/-- The classifier entry point, mirroring TryFrom of syn::ReturnType for
Returning: an absent return type (ReturnType::Default) is None; otherwise
the declared type is lifetime-anonymized and dispatched on its head
constructor; every unhandled constructor is the eyre unknown-return-type
error. -/
def classifyReturn : Option SynType → Except ClassifyFailure Returning
  | none => .ok .noneRet
  | some ty0 =>
    match anonType ty0 with
    | .implTrait bounds => parse_impl_trait bounds
    | .traitObject bounds => parse_dyn_trait bounds
    | .typePath segs => classifyPath segs
    | .reference lt elem =>
      .ok (.tyRet (.reference (lt.map (fun _ => "static")) elem) none)
    | .tuple elems =>
      if elems.isEmpty then .ok (.tyRet (.tuple elems) none)
      else parse_type_tuple elems
    | .macCall pathIdents body => parse_type_macro pathIdents body
    | .otherType tag => .error (.errF ("Got unknown return type: " ++ tag))

/- ## Part 3: the entity model and the DDL renderer
   (pg_extern/entity/mod.rs). -/

/-- Modelled from the spec: the ExternArgs enumeration lives in the
pgx-utils crate root, outside the given sources; per the spec the
attribute set holds flags "e.g. Strict, Requires(list), Immutable".
Only the Strict flag and the Requires payload are inspected by the
renderer; every other flag is carried opaquely with its display text. -/
inductive ExternArgs where
  | strict
  | requiresArg (deps : List String)
  | otherAttr (display : String)
deriving DecidableEq

/-- Modelled from the spec: display text of an attribute as rendered into
the statement (the renderer upper-cases it). -/
def ExternArgs.displayText : ExternArgs → String
  | .strict => "strict"
  | .requiresArg _ => ""
  | .otherAttr s => s

/-- SqlVariant from the metadata module (declaration only; its use sites
are in entity/mod.rs): a statically mapped SQL type name, a composite
type with an array-bracket flag, or a skipped argument. -/
inductive SqlVariant where
  | mapped (sql : String)
  | composite (requires_array_brackets : Bool)
  | skip
deriving DecidableEq

/-- ReturnVariant from the metadata module (declaration only; its use
sites are in entity/mod.rs): a plain value, a set of values, or a
table. -/
inductive ReturnVariant where
  | plain (v : SqlVariant)
  | setOfV (v : SqlVariant)
  | table (vs : List SqlVariant)
deriving DecidableEq

/-- One argument record of FunctionMetadataEntity as consumed by to_sql:
a type id (modelled as Nat), a type name, the optional and variadic
flags, and the realized argument SQL. -/
structure FunctionMetadataArg where
  type_id : Nat
  type_name : String
  optional : Bool
  variadic : Bool
  argument_sql : Except String SqlVariant

/-- The return-value record of FunctionMetadataEntity as consumed by
to_sql. -/
structure FunctionMetadataRet where
  type_id : Nat
  type_name : String
  return_sql : Except String ReturnVariant

/-- FunctionMetadataEntity as consumed by to_sql: the realized argument
records and the optional realized return record. -/
structure FunctionMetadataEntity where
  arguments : List FunctionMetadataArg
  retval : Option FunctionMetadataRet

/-- The used-type half of PgExternArgumentEntity as consumed by to_sql:
an optional default literal and an optional composite type name. -/
structure UsedTypeEntity where
  default : Option String
  composite_type : Option String

/-- PgExternArgumentEntity as consumed by to_sql: the parameter pattern
and the used type. -/
structure PgExternArgumentEntity where
  pattern : String
  used_ty : UsedTypeEntity

/-- The type payload of a PgExternReturnEntity variant as consumed by
to_sql: only its optional composite type name is read. -/
structure RetTypeEntity where
  composite_type : Option String

/-- PgExternReturnEntity (declaration in entity/returning.rs, use sites
in entity/mod.rs): the classified return shape carried by the entity. -/
inductive PgExternReturnEntity where
  | noneE
  | typeE (ty : RetTypeEntity)
  | setOfE (ty : RetTypeEntity)
  | iteratedE (n : Nat)
  | triggerE

/-- PgOperatorEntity as consumed by to_sql. -/
structure PgOperatorEntity where
  opname : Option String
  commutator : Option String
  negator : Option String
  restrict : Option String
  join : Option String
  hashes : Bool
  merges : Bool

/-- PgExternEntity: the callable entity record rendered by to_sql. -/
structure PgExternEntity where
  name : String
  unaliased_name : String
  module_path : String
  full_path : String
  metadata : FunctionMetadataEntity
  fn_args : List PgExternArgumentEntity
  fn_return : PgExternReturnEntity
  schema : Option String
  file : String
  line : Nat
  extern_attrs : List ExternArgs
  search_path : Option (List String)
  operator : Option PgOperatorEntity

/-- The PgxSql rendering context as consulted by to_sql: the graph-node
index of the entity itself, the internal placeholder type id, the module
pathname, the neighbor lookup used to resolve an argument or return type
(matching a Type or Enum node by type id or a BuiltinType node by name
among the undirected neighbors), and the schema prefix of a graph
node. -/
structure PgxSql where
  selfIndex : Nat
  internal_type : Nat
  module_pathname : String
  resolve : Nat → String → Option Nat
  schemaPrefixFor : Nat → String

/-- How rendering fails: rErr models an eyre error returned with the
question-mark operator; rPanic models a Rust panic (an out-of-bounds
index, an unwrap, or a todo arm). -/
inductive RenderFailure where
  | rErr (msg : String)
  | rPanic (msg : String)

/-- The strict-upgrade computation at the top of to_sql: when the Strict
attribute is not already present and no realized argument is optional or
of the internal placeholder type, append Strict to the attribute list;
otherwise keep the list unchanged. -/
def strictUpgradeAttrs (internal_type : Nat) (attrs : List ExternArgs)
    (args : List FunctionMetadataArg) : List ExternArgs :=
  if (!(attrs.any (fun i => i = ExternArgs.strict)))
      && args.all (fun arg => !(arg.optional || arg.type_id = internal_type))
  then attrs ++ [ExternArgs.strict] else attrs

/-- One rendered argument line of the CREATE FUNCTION argument list, as
formatted in to_sql. -/
def renderArgLine (pattern : String) (variadic : Bool) (schemaPre : String)
    (sql_type : String) (default : Option String) (needs_comma : Bool)
    (type_name : String) : String :=
  "\t\"" ++ pattern ++ "\" " ++ (if variadic then "VARIADIC " else "")
    ++ schemaPre ++ sql_type
    ++ (match default with
        | some def_ => " DEFAULT " ++ def_
        | none => "")
    ++ (if needs_comma then ", " else " ")
    ++ "/* " ++ type_name ++ " */"

/-- The per-argument loop of to_sql: for the argument at position idx
(out of total), read the pattern and default from fn_args (an
out-of-bounds index is a panic), resolve the argument type in the graph
(an unresolved type is an error), then emit one line for a mapped SQL
type, one line with the composite type name (array-bracketed when
flagged; a missing name is an error) for a composite, no line for a
skipped argument, and fail for a realized argument error.  The comma
after a line is decided by the argument's position among all arguments,
not among the emitted ones. -/
def renderArgsLoop (context : PgxSql) (self : PgExternEntity) (total : Nat) :
    Nat → List FunctionMetadataArg → Except RenderFailure (List String)
  | _, [] => .ok []
  | idx, arg :: rest =>
    match self.fn_args.get? idx with
    | none => .error (.rPanic "index out of bounds")
    | some fa =>
      match context.resolve arg.type_id arg.type_name with
      | none => .error (.rErr "Could not find arg type in graph.")
      | some graph_index =>
        let needs_comma := decide (idx < total - 1)
        let line? : Except RenderFailure (Option String) :=
          match arg.argument_sql with
          | .ok (.mapped sql) =>
            .ok (some (renderArgLine fa.pattern arg.variadic
              (context.schemaPrefixFor graph_index) sql fa.used_ty.default
              needs_comma arg.type_name))
          | .ok (.composite rab) =>
            match fa.used_ty.composite_type with
            | some v =>
              .ok (some (renderArgLine fa.pattern arg.variadic
                (context.schemaPrefixFor graph_index)
                (if rab then v ++ "[]" else v) fa.used_ty.default
                needs_comma arg.type_name))
            | none =>
              .error (.rErr "Macro expansion time suggested a composite_type!() in return")
          | .ok .skip => .ok none
          | .error e => .error (.rErr ("While mapping argument: " ++ e))
        match line? with
        | .error f => .error f
        | .ok l =>
          match renderArgsLoop context self total (idx + 1) rest with
          | .error f => .error f
          | .ok restLines => .ok (l.toList ++ restLines)

/-- The arguments fragment of the CREATE FUNCTION statement: empty for a
callable without arguments, otherwise the emitted lines joined by
newlines and surrounded by newlines. -/
def renderArguments (context : PgxSql) (self : PgExternEntity) :
    Except RenderFailure String :=
  if self.metadata.arguments.isEmpty then .ok ""
  else
    match renderArgsLoop context self self.metadata.arguments.length 0
      self.metadata.arguments with
    | .error f => .error f
    | .ok lines => .ok ("\n" ++ String.intercalate "\n" lines ++ "\n")

/- The RETURNS fragment of the CREATE FUNCTION statement: void without a
realized return record; otherwise the return type is resolved in the
graph, and the realized return variant is rendered.  The rendering is
split into the helper functions below, one per match level of the
source. -/

/-- The Plain(Composite) arm of the return-variant rendering: the
classified fn_return must be a Type carrying a composite type name
(array-bracketed when flagged); every other classified shape is the
shape-mismatch error spelled out in the source. -/
def plainCompositePair (fnret : PgExternReturnEntity) (rab : Bool) :
    Except RenderFailure (String × String) :=
  match fnret with
  | .noneE =>
    .error (.rErr "Macro expansion time suggested no return value, but at runtime a return value was determined")
  | .typeE ty =>
    match ty.composite_type with
    | some v => .ok ("", if rab then v ++ "[]" else v)
    | none =>
      .error (.rErr "Macro expansion time suggested a composite_type!() in return")
  | .setOfE _ =>
    .error (.rErr "Macro expansion time suggested a SetOfIterator return value, but at runtime a plain return value was determined")
  | .iteratedE _ =>
    .error (.rErr "Macro expansion time suggested a TableIterator return value, but at runtime a plain return value was determined")
  | .triggerE =>
    .error (.rErr "Macro expansion time suggested a Trigger return value, but at runtime a plain return value was determined")

/-- The SetOf(Composite) arm of the return-variant rendering: the
classified fn_return must be a SetOf carrying a composite type name;
every other classified shape is the shape-mismatch error spelled out in
the source. -/
def setOfCompositePair (fnret : PgExternReturnEntity) (rab : Bool) :
    Except RenderFailure (String × String) :=
  match fnret with
  | .noneE =>
    .error (.rErr "Macro expansion time suggested no return value, but at runtime a return value was determined")
  | .typeE _ =>
    .error (.rErr "Macro expansion time suggested a plain return value, but at runtime a SetOf return value was determined")
  | .setOfE ty =>
    match ty.composite_type with
    | some v => .ok ("SETOF ", if rab then v ++ "[]" else v)
    | none =>
      .error (.rErr "Macro expansion time suggested a composite_type!() in return")
  | .iteratedE _ =>
    .error (.rErr "Macro expansion time suggested a TableIterator return value, but at runtime a SetOf return value was determined")
  | .triggerE =>
    .error (.rErr "Macro expansion time suggested a Trigger return value, but at runtime a SetOf return value was determined")

/-- The variant-prefix and SQL-type pair of the RETURNS clause, from the
realized return variant: a mapped SQL type is used directly without
consulting the classified shape; a composite realized variant delegates
to the matching shape check; a skipped plain return is an error and a
skipped set return is a todo panic; a realized table variant renders a
TODO placeholder; a realized error propagates. -/
def returnVariantPair (fnret : PgExternReturnEntity) :
    Except String ReturnVariant → Except RenderFailure (String × String)
  | .ok (.plain v) =>
    match v with
    | .mapped sql => .ok ("", sql)
    | .composite rab => plainCompositePair fnret rab
    | .skip =>
      .error (.rErr "At runtime a skipped return value was determined, this is not valid")
  | .ok (.setOfV v) =>
    match v with
    | .mapped sql => .ok ("SETOF ", sql)
    | .composite rab => setOfCompositePair fnret rab
    | .skip => .error (.rPanic "not yet implemented")
  | .ok (.table _) => .ok ("TABLE ", "TODO")
  | .error e => .error (.rErr ("Mapping return type: " ++ e))

/-- Assembly of the RETURNS text once the graph node is resolved. -/
def renderReturnsResolved (context : PgxSql) (type_name : String)
    (graph_index : Nat) (pair : Except RenderFailure (String × String)) :
    Except RenderFailure String :=
  match pair with
  | .error f => .error f
  | .ok p =>
    .ok ("RETURNS " ++ p.fst ++ context.schemaPrefixFor graph_index
      ++ p.snd ++ " /* " ++ type_name ++ " */")

/-- The RETURNS fragment given the optional realized return record. -/
def renderReturnsCore (context : PgxSql) (fnret : PgExternReturnEntity) :
    Option FunctionMetadataRet → Except RenderFailure String
  | none => .ok "RETURNS void"
  | some retval =>
    match context.resolve retval.type_id retval.type_name with
    | none => .error (.rErr "Could not find return type in graph.")
    | some graph_index =>
      renderReturnsResolved context retval.type_name graph_index
        (returnVariantPair fnret retval.return_sql)

/-- The RETURNS fragment of the CREATE FUNCTION statement of to_sql. -/
def renderReturns (context : PgxSql) (self : PgExternEntity) :
    Except RenderFailure String :=
  renderReturnsCore context self.fn_return self.metadata.retval

/-- The optional-clause list of the CREATE OPERATOR statement, in the
fixed order commutator, negator, restrict, join, hashes, merges. -/
def operatorOptionals (op : PgOperatorEntity) : List String :=
  (match op.commutator with
   | some it => ["\tCOMMUTATOR = " ++ it]
   | none => [])
  ++ (match op.negator with
      | some it => ["\tNEGATOR = " ++ it]
      | none => [])
  ++ (match op.restrict with
      | some it => ["\tRESTRICT = " ++ it]
      | none => [])
  ++ (match op.join with
      | some it => ["\tJOIN = " ++ it]
      | none => [])
  ++ (if op.hashes then ["\tHASHES"] else [])
  ++ (if op.merges then ["\tMERGES"] else [])

/-- Resolution of the left operand SQL text in the CREATE OPERATOR
rendering: a mapped SQL name is used as is; a composite realized type
reads the composite type name of fn_args position 0 (missing name is an
error); a skipped realized type is an error. -/
def leftArgSql (self : PgExternEntity) (left_arg : FunctionMetadataArg) :
    Except RenderFailure String :=
  match left_arg.argument_sql with
  | .ok (.mapped sql) => .ok sql
  | .ok (.composite rab) =>
    match self.fn_args.get? 0 with
    | none => .error (.rPanic "index out of bounds")
    | some fa =>
      match fa.used_ty.composite_type with
      | some ct => .ok (if rab then ct ++ "[]" else ct)
      | none =>
        .error (.rErr "Found a composite type but macro expansion time did not reveal a name, use composite_type!()")
  | .ok .skip =>
    .error (.rErr "Found an skipped SQL type in an operator, this is not valid")
  | .error e => .error (.rErr e)

/-- Resolution of the right operand SQL text in the CREATE OPERATOR
rendering, exactly as the source writes it: a mapped SQL name is used as
is; a composite realized type with array brackets reads the composite
type name of fn_args position 1, while a composite realized type without
array brackets reads the composite type name of fn_args position 0; a
skipped realized type is an error. -/
def rightArgSql (self : PgExternEntity) (right_arg : FunctionMetadataArg) :
    Except RenderFailure String :=
  match right_arg.argument_sql with
  | .ok (.mapped sql) => .ok sql
  | .ok (.composite rab) =>
    if rab then
      match self.fn_args.get? 1 with
      | none => .error (.rPanic "index out of bounds")
      | some fa =>
        match fa.used_ty.composite_type with
        | some ct => .ok (ct ++ "[]")
        | none =>
          .error (.rErr "Found a composite type but macro expansion time did not reveal a name, use composite_type!()")
    else
      match self.fn_args.get? 0 with
      | none => .error (.rPanic "index out of bounds")
      | some fa =>
        match fa.used_ty.composite_type with
        | some ct => .ok ct
        | none =>
          .error (.rErr "Found a composite type but macro expansion time did not reveal a name, use composite_type!()")
  | .ok .skip =>
    .error (.rErr "Found an skipped SQL type in an operator, this is not valid")
  | .error e => .error (.rErr e)

/-- The CREATE OPERATOR statement appended by to_sql when operator
metadata is present: operands are the realized arguments at positions 0
and 1 (a missing one is the did-not-find error), resolved in the graph
like ordinary arguments; the operator name is unwrapped (a missing name
is a panic). -/
def renderOperator (context : PgxSql) (self : PgExternEntity)
    (op : PgOperatorEntity) : Except RenderFailure String :=
  let optionals := operatorOptionals op
  match self.metadata.arguments.get? 0 with
  | none =>
    .error (.rErr ("Did not find left_arg for operator " ++ self.name ++ "."))
  | some left_arg =>
    match context.resolve left_arg.type_id left_arg.type_name with
    | none => .error (.rErr "Could not find left arg type in graph.")
    | some left_arg_graph_index =>
      match leftArgSql self left_arg with
      | .error f => .error f
      | .ok left_arg_sql =>
        match self.metadata.arguments.get? 1 with
        | none =>
          .error (.rErr ("Did not find left_arg for operator " ++ self.name ++ "."))
        | some right_arg =>
          match context.resolve right_arg.type_id right_arg.type_name with
          | none => .error (.rErr "Could not find right arg type in graph.")
          | some right_arg_graph_index =>
            match rightArgSql self right_arg with
            | .error f => .error f
            | .ok right_arg_sql =>
              match op.opname with
              | none => .error (.rPanic "called Option::unwrap on a None value")
              | some opname =>
                let maybe_comma := if optionals.length ≥ 1 then "," else ""
                let optionalsStr :=
                  if optionals.isEmpty then ""
                  else String.intercalate ",\n" optionals ++ "\n"
                .ok ("\n\n-- " ++ self.file ++ ":" ++ toString self.line
                  ++ "\n-- " ++ self.module_path ++ "::" ++ self.name
                  ++ "\nCREATE OPERATOR " ++ opname ++ " (\n\tPROCEDURE=\""
                  ++ self.name ++ "\",\n\tLEFTARG="
                  ++ context.schemaPrefixFor left_arg_graph_index
                  ++ left_arg_sql ++ ", /* " ++ left_arg.type_name
                  ++ " */\n\tRIGHTARG="
                  ++ context.schemaPrefixFor right_arg_graph_index
                  ++ right_arg_sql ++ maybe_comma ++ " /* "
                  ++ right_arg.type_name ++ " */\n" ++ optionalsStr ++ ");")

/-- The requires comment block preceding the statement: the concatenation
of all Requires attribute payloads, each rendered as a comment line; empty
when there are none.  It is computed from the original attribute list,
before the strict upgrade. -/
def requiresBlock (attrs : List ExternArgs) : String :=
  let requires_attrs :=
    (attrs.filterMap (fun x =>
      match x with
      | .requiresArg reqs => some reqs
      | _ => none)).flatten
  if requires_attrs.isEmpty then ""
  else
    "-- requires:\n"
      ++ String.intercalate "\n" (requires_attrs.map (fun i => "--   " ++ i))
      ++ "\n"

/-- The attribute fragment of the CREATE FUNCTION statement: each
attribute of the (possibly strict-upgraded) list is displayed
upper-cased, joined by spaces, with a trailing newline; empty when the
list is empty. -/
def externAttrsFragment (attrs : List ExternArgs) : String :=
  if attrs.isEmpty then ""
  else
    String.intercalate " " (attrs.map (fun a => a.displayText.toUpper)) ++ "\n"

/-- The search-path fragment of the CREATE FUNCTION statement. -/
def searchPathFragment (sp : Option (List String)) : String :=
  match sp with
  | some search_path =>
    "SET search_path TO " ++ String.intercalate ", " search_path ++ "\n"
  | none => ""

/-- The schema qualifier of the CREATE FUNCTION statement: the declared
schema override with a trailing dot, or the schema prefix of the
entity's own graph node. -/
def schemaString (context : PgxSql) : Option String → String
  | some s => s ++ "."
  | none => context.schemaPrefixFor context.selfIndex

/-- The CREATE FUNCTION statement text of to_sql, once the argument and
return fragments are rendered. -/
def fnSqlText (context : PgxSql) (self : PgExternEntity)
    (argumentsStr returnsStr : String) : String :=
  "CREATE FUNCTION " ++ schemaString context self.schema ++ "\"" ++ self.name
    ++ "\"(" ++ argumentsStr ++ ") " ++ returnsStr ++ "\n"
    ++ externAttrsFragment (strictUpgradeAttrs context.internal_type
        self.extern_attrs self.metadata.arguments)
    ++ searchPathFragment self.search_path
    ++ "LANGUAGE c /* Rust */\nAS '" ++ context.module_pathname ++ "', '"
    ++ self.name ++ "_wrapper';"

/-- The per-entity block of to_sql: the comment header, the requires
block and the CREATE FUNCTION statement. -/
def extSqlText (self : PgExternEntity) (fn_sql : String) : String :=
  "\n-- " ++ self.file ++ ":" ++ toString self.line
    ++ "\n-- " ++ self.module_path ++ "::" ++ self.name ++ "\n"
    ++ requiresBlock self.extern_attrs ++ fn_sql

/-- The operator appendix of to_sql: nothing without operator metadata,
otherwise the rendered CREATE OPERATOR statement appended to the
block. -/
def withOperator (context : PgxSql) (self : PgExternEntity)
    (ext_sql : String) : Option PgOperatorEntity → Except RenderFailure String
  | none => .ok ext_sql
  | some op =>
    match renderOperator context self op with
    | .error f => .error f
    | .ok operator_sql => .ok (ext_sql ++ operator_sql)

/-- ToSql::to_sql for PgExternEntity: compute the strict-upgraded
attribute list, render the argument list and the RETURNS clause (each
failure aborts the whole rendering), assemble the CREATE FUNCTION
statement with its comment header and requires block, and append the
CREATE OPERATOR statement when operator metadata is present. -/
def to_sql (context : PgxSql) (self : PgExternEntity) :
    Except RenderFailure String :=
  match renderArguments context self with
  | .error f => .error f
  | .ok argumentsStr =>
    match renderReturns context self with
    | .error f => .error f
    | .ok returnsStr =>
      withOperator context self
        (extSqlText self (fnSqlText context self argumentsStr returnsStr))
        self.operator

/- ## Part 4: the trigger generator (pg_trigger/mod.rs). -/

/-- ToSqlConfig as consumed by PgTrigger::new (declaration outside the
given sources): only its optional content string is read and rewritten
here; the rest of the record is opaque to this code. -/
structure ToSqlConfig where
  content : Option String

/-- PgTriggerAttribute (declaration in pg_trigger/attribute.rs, outside
the given sources): the sql attribute carrying a ToSqlConfig, and a
catch-all for any other attribute kind. -/
inductive PgTriggerAttribute where
  | sqlAttr (cfg : ToSqlConfig)
  | otherTriggerAttr

/-- Modelled from the spec: the collaborators of PgTrigger::new that live
outside the given sources, passed explicitly: the Default instance of
ToSqlConfig, the overrides-default test on a config, and the
postgres-identifier acceptability test on the function name (which can
fail with an error). -/
structure TriggerEnv where
  defaultConfig : ToSqlConfig
  overridesDefault : ToSqlConfig → Bool
  identAcceptable : String → Except String Unit

/-- The PgTrigger record produced by PgTrigger::new: the declared
function (kept here as its identifier) and the stored config. -/
structure PgTriggerDecl where
  funcIdent : String
  to_sql_config : ToSqlConfig

/-- The attribute scan loop of PgTrigger::new: the first sql attribute is
kept; a second sql attribute is the multiple-sql-arguments error; other
attribute kinds are skipped. -/
def findSqlConfig : List PgTriggerAttribute → Option ToSqlConfig →
    Except String (Option ToSqlConfig)
  | [], found => .ok found
  | attr :: rest, found =>
    match attr, found with
    | .sqlAttr cfg, none => findSqlConfig rest (some cfg)
    | .sqlAttr _, some _ =>
      .error "Multiple sql arguments found, it must be unique"
    | .otherTriggerAttr, f => findSqlConfig rest f

/-- Replacement of every non-overlapping occurrence of a pattern, left to
right, over character lists, with explicit fuel for structural recursion;
this models the Rust standard-library str::replace called by
PgTrigger::new.  At each position, if the (non-empty) pattern is a prefix
of the remaining input it is consumed and the replacement emitted,
otherwise one character is copied; the fuel is an upper bound on the
number of steps, and one whole input length of fuel always suffices. -/
def replaceFuel (p r : List Char) : Nat → List Char → List Char
  | _, [] => []
  | 0, s => s
  | fuel + 1, c :: cs =>
    if p.isPrefixOf (c :: cs) ∧ p ≠ [] then
      r ++ replaceFuel p r fuel ((c :: cs).drop p.length)
    else
      c :: replaceFuel p r fuel cs

/-- Replacement of every non-overlapping occurrence of pattern by repl in
s, left to right: the behaviour of the Rust str::replace used by
PgTrigger::new. -/
def rustReplace (s pattern repl : String) : String :=
  String.mk (replaceFuel pattern.data repl.data s.data.length s.data)

/-- The content rewriting of PgTrigger::new: every occurrence of the
placeholder @FUNCTION_NAME@ in the sql content is replaced by the wrapper
name (the function identifier with the _wrapper suffix) and a newline is
appended. -/
def rewriteTriggerContent (funcIdent content : String) : String :=
  rustReplace content "@FUNCTION_NAME@" (funcIdent ++ "_wrapper") ++ "\n"

/-- PgTrigger::new: scan the attributes for a unique sql config, rewrite
its content if present, fall back to the default config, check the
function identifier against postgres naming when the config does not
override the default, and store the config. -/
def PgTrigger.new (env : TriggerEnv) (funcIdent : String)
    (attributes : List PgTriggerAttribute) : Except String PgTriggerDecl :=
  match findSqlConfig attributes none with
  | .error e => .error e
  | .ok found0 =>
    let found := found0.map (fun cfg =>
      { cfg with
        content := cfg.content.map (rewriteTriggerContent funcIdent) })
    let to_sql_config := found.getD env.defaultConfig
    if !env.overridesDefault to_sql_config then
      match env.identAcceptable funcIdent with
      | .error e => .error e
      | .ok _ => .ok { funcIdent := funcIdent, to_sql_config := to_sql_config }
    else
      .ok { funcIdent := funcIdent, to_sql_config := to_sql_config }

/-- The origin of a field value in the generated registration entity:
a string literal spliced into the tokens, the file and line macros
evaluated at the expansion site, the module_path macro, or the concat of
the module_path macro, the separator and the stringified identifier. -/
inductive EntityFieldSource where
  | lit (s : String)
  | fileMacroCall
  | lineMacroCall
  | modulePathMacroCall
  | modulePathConcat (ident : String)
deriving DecidableEq

/-- The registration entity emitted by PgTrigger::entity_tokens, read off
the quoted tokens: the generated function name and the five fields of the
PgTriggerEntity literal it constructs. -/
structure TriggerEntityTokens where
  entityFnName : String
  function_name : EntityFieldSource
  file : EntityFieldSource
  line : EntityFieldSource
  full_path : EntityFieldSource
  module_path : EntityFieldSource

/-- PgTrigger::entity_tokens: the generated registration function is
named with the __pgx_internals_trigger_ prefix and submits a
PgTriggerEntity carrying the function name as a literal, the file and
line macros, the full path as module_path concatenated with the
identifier, and the module_path macro. -/
def entity_tokens (t : PgTriggerDecl) : TriggerEntityTokens :=
  { entityFnName := "__pgx_internals_trigger_" ++ t.funcIdent,
    function_name := .lit t.funcIdent,
    file := .fileMacroCall,
    line := .lineMacroCall,
    full_path := .modulePathConcat t.funcIdent,
    module_path := .modulePathMacroCall }

/-- Outcome of one call of the generated trigger wrapper: a returned
datum, or a process-fatal panic with the message of the failed expect.
No recoverable error constructor exists in this type, mirroring that the
generated wrapper returns a bare Datum to the engine. -/
inductive WrapperOutcome (Datum : Type) where
  | okDatum (d : Datum)
  | panicAbort (msg : String)

/-- Semantics of the wrapper body emitted by PgTrigger::wrapper_tokens,
read off the quoted tokens: obtain the trigger context from the call
info (a missing context is an expect panic), invoke the user callable on
it (an error result is an expect panic), convert the returned row into a
datum (a failed conversion is an expect panic), and return the datum. -/
def wrapperRun {Fcinfo Handle Tuple Datum E : Type}
    (from_fcinfo : Fcinfo → Option Handle)
    (userFn : Handle → Except E Tuple)
    (into_datum : Tuple → Option Datum)
    (fcinfo : Fcinfo) : WrapperOutcome Datum :=
  match from_fcinfo fcinfo with
  | none => .panicAbort "PgTrigger::from_fcinfo failed"
  | some pg_trigger =>
    match userFn pg_trigger with
    | .error _ => .panicAbort "Trigger function panic"
    | .ok trigger_retval =>
      match into_datum trigger_retval with
      | none =>
        .panicAbort "Failed to turn trigger function return value into Datum"
      | some d => .okDatum d

/-- PgTrigger::wrapper_tokens: the name of the generated extern wrapper
function is the function identifier with the _wrapper suffix. -/
def wrapper_tokens_name (t : PgTriggerDecl) : String :=
  t.funcIdent ++ "_wrapper"

/- ## Part 5: helper lemmas shared by the claim theorems. -/

theorem anonSegList_eq_map (l : List PathSegment) :
    anonSegList l = l.map anonSeg := by
  induction l with
  | nil => rfl
  | cons s ss ih => simp [anonSegList, ih]

theorem segIdent_anonSeg (s : PathSegment) :
    segIdent (anonSeg s) = segIdent s := by
  cases s with
  | mk i a => rfl

theorem getLast_segIdent_anonSegList (p : List PathSegment) :
    ((anonSegList p).getLast?).map segIdent = (p.getLast?).map segIdent := by
  rw [anonSegList_eq_map, List.getLast?_map, Option.map_map]
  exact Option.map_congr (fun s _ => segIdent_anonSeg s)

/-- Panic-class failures of the classifier. -/
def isPanicFailure : Except ClassifyFailure Returning → Bool
  | .error (.panicF _) => true
  | _ => false

theorem parse_trait_bound_panic (q : List PathSegment)
    (h : (q.getLast?).map segIdent ≠ some "Iterator") :
    isPanicFailure (parse_trait_bound q) = true := by
  unfold parse_trait_bound
  split
  · rfl
  · rename_i seg heq
    have hni : ¬ segIdent seg = "Iterator" := by
      rw [heq] at h
      simpa using h
    rw [if_neg hni]
    rfl

/-- The per-column contract of the classifier on one already-anonymized
tuple element, as stated by the spec: a name-macro element yields its
declared type and name, a composite_type element yields the row-handle
type and no name, every other element yields the element type and no
name; in particular a name is present exactly when the element declares
one. -/
def columnMatchesElemCore (aty : SynType) (item : ReturningIteratedItem) : Prop :=
  match aty with
  | .macCall pathIdents body =>
    (pathIdents.getLast? = some "name" ∧
      ∃ n ty, body = .nameBody n ty ∧ item.ty = ty ∧ item.name = some n) ∨
    (pathIdents.getLast? = some "composite_type" ∧
      item.ty = heapTupleRowType ∧ item.name = none)
  | ty => item.ty = ty ∧ item.name = none

/-- The per-column contract on a raw tuple element (the classifier
anonymizes lifetimes before dispatching). -/
def columnMatchesElem (elem : SynType) (item : ReturningIteratedItem) : Prop :=
  columnMatchesElemCore (anonType elem) item

theorem parseTupleItemCore_ok_spec (aty : SynType) (item : ReturningIteratedItem)
    (h : parseTupleItemCore aty = .ok item) : columnMatchesElemCore aty item := by
  cases aty with
  | macCall pathIdents body =>
    simp only [parseTupleItemCore] at h
    simp only [columnMatchesElemCore]
    split at h
    · exact absurd h (by simp)
    · rename_i archetype heq
      rw [heq]
      split_ifs at h with hn hc
      · subst hn
        split at h
        next ident ty =>
          split at h
          next => exact absurd h (by simp)
          next sql hS =>
            simp only [Except.ok.injEq] at h
            subst h
            exact Or.inl ⟨rfl, ident, ty, rfl, rfl, rfl⟩
        next x hx => exact absurd h (by simp)
      · subst hc
        split at h
        · rename_i sql
          simp only [Except.ok.injEq] at h
          subst h
          exact Or.inr ⟨rfl, rfl, rfl⟩
        · exact absurd h (by simp)
  | implTrait bounds =>
    simp only [parseTupleItemCore, Except.ok.injEq] at h
    subst h; exact ⟨rfl, rfl⟩
  | traitObject bounds =>
    simp only [parseTupleItemCore, Except.ok.injEq] at h
    subst h; exact ⟨rfl, rfl⟩
  | typePath segs =>
    simp only [parseTupleItemCore, Except.ok.injEq] at h
    subst h; exact ⟨rfl, rfl⟩
  | reference lt elem' =>
    simp only [parseTupleItemCore, Except.ok.injEq] at h
    subst h; exact ⟨rfl, rfl⟩
  | tuple elems =>
    simp only [parseTupleItemCore, Except.ok.injEq] at h
    subst h; exact ⟨rfl, rfl⟩
  | otherType tag =>
    simp only [parseTupleItemCore, Except.ok.injEq] at h
    subst h; exact ⟨rfl, rfl⟩

theorem parseTupleItem_ok_spec (elem : SynType) (item : ReturningIteratedItem)
    (h : parseTupleItem elem = .ok item) : columnMatchesElem elem item :=
  parseTupleItemCore_ok_spec (anonType elem) item h

theorem parseTupleItems_ok_spec (elems : List SynType)
    (items : List ReturningIteratedItem)
    (h : parseTupleItems elems = .ok items) :
    items.length = elems.length ∧
    ∀ i (hi : i < elems.length) (hi' : i < items.length),
      parseTupleItem (elems.get ⟨i, hi⟩) = .ok (items.get ⟨i, hi'⟩) := by
  induction elems generalizing items with
  | nil =>
    unfold parseTupleItems at h
    simp only [Except.ok.injEq] at h
    subst h
    exact ⟨rfl, fun i hi => absurd hi (by simp)⟩
  | cons e es ih =>
    unfold parseTupleItems at h
    cases hE : parseTupleItem e with
    | error f => rw [hE] at h; exact absurd h (by simp)
    | ok item =>
      rw [hE] at h
      cases hR : parseTupleItems es with
      | error f => rw [hR] at h; exact absurd h (by simp)
      | ok rest =>
        rw [hR] at h
        simp only [Except.ok.injEq] at h
        subst h
        obtain ⟨hlen, hall⟩ := ih rest hR
        refine ⟨by simp [hlen], ?_⟩
        intro i hi hi'
        cases i with
        | zero => simpa using hE
        | succ j =>
          simp only [List.length_cons, Nat.succ_lt_succ_iff] at hi hi'
          simpa using hall j hi hi'

/-- Discriminator for the sql attribute of a trigger declaration. -/
def isSqlAttr : PgTriggerAttribute → Bool
  | .sqlAttr _ => true
  | _ => false

theorem countP_cons_sql (cfg : ToSqlConfig) (rest : List PgTriggerAttribute) :
    List.countP isSqlAttr (.sqlAttr cfg :: rest)
      = List.countP isSqlAttr rest + 1 := by
  simp [List.countP_cons, isSqlAttr]

theorem countP_cons_other (rest : List PgTriggerAttribute) :
    List.countP isSqlAttr (.otherTriggerAttr :: rest)
      = List.countP isSqlAttr rest := by
  simp [List.countP_cons, isSqlAttr]

theorem findSqlConfig_countP_zero (attrs : List PgTriggerAttribute)
    (h : List.countP isSqlAttr attrs = 0) (f : Option ToSqlConfig) :
    findSqlConfig attrs f = .ok f := by
  induction attrs generalizing f with
  | nil => rfl
  | cons a rest ih =>
    cases a with
    | sqlAttr cfg => simp [List.countP_cons, isSqlAttr] at h
    | otherTriggerAttr =>
      rw [countP_cons_other] at h
      exact ih h f

theorem findSqlConfig_some_errs (attrs : List PgTriggerAttribute)
    (cfg0 : ToSqlConfig) (h : 1 ≤ List.countP isSqlAttr attrs) :
    (findSqlConfig attrs (some cfg0)).isOk = false := by
  induction attrs with
  | nil => simp [List.countP_nil] at h
  | cons a rest ih =>
    cases a with
    | sqlAttr cfg => rfl
    | otherTriggerAttr =>
      rw [countP_cons_other] at h
      exact ih h

theorem findSqlConfig_two_errs (attrs : List PgTriggerAttribute)
    (h : 2 ≤ List.countP isSqlAttr attrs) :
    (findSqlConfig attrs none).isOk = false := by
  induction attrs with
  | nil => simp [List.countP_nil] at h
  | cons a rest ih =>
    cases a with
    | sqlAttr cfg =>
      rw [countP_cons_sql] at h
      exact findSqlConfig_some_errs rest cfg (by omega)
    | otherTriggerAttr =>
      rw [countP_cons_other] at h
      exact ih h

theorem findSqlConfig_unique (attrs : List PgTriggerAttribute)
    (cfg : ToSqlConfig) (h1 : List.countP isSqlAttr attrs = 1)
    (hm : PgTriggerAttribute.sqlAttr cfg ∈ attrs) :
    findSqlConfig attrs none = .ok (some cfg) := by
  induction attrs with
  | nil => cases hm
  | cons a rest ih =>
    cases a with
    | sqlAttr cfg2 =>
      rw [countP_cons_sql] at h1
      have hrest : List.countP isSqlAttr rest = 0 := by omega
      have hcc : cfg2 = cfg := by
        rcases List.mem_cons.mp hm with heq | hmem
        · exact (PgTriggerAttribute.sqlAttr.inj heq).symm
        · exfalso
          have hpos : 0 < List.countP isSqlAttr rest :=
            List.countP_pos_iff.mpr ⟨_, hmem, rfl⟩
          omega
      subst hcc
      show findSqlConfig rest (some cfg2) = .ok (some cfg2)
      exact findSqlConfig_countP_zero rest hrest (some cfg2)
    | otherTriggerAttr =>
      rw [countP_cons_other] at h1
      have hm' : PgTriggerAttribute.sqlAttr cfg ∈ rest := by
        rcases List.mem_cons.mp hm with heq | hmem
        · cases heq
        · exact hmem
      exact ih h1 hm'

theorem renderReturns_err_to_sql (context : PgxSql) (self : PgExternEntity)
    (h : (renderReturns context self).isOk = false) :
    (to_sql context self).isOk = false := by
  unfold to_sql
  cases hA : renderArguments context self with
  | error f => rfl
  | ok a =>
    cases hR : renderReturns context self with
    | error f => rfl
    | ok r => rw [hR] at h; simp [Except.isOk, Except.toBool] at h

theorem plainCompositePair_err (fnret : PgExternReturnEntity) (rab : Bool)
    (hty : ∀ ty, fnret ≠ .typeE ty) :
    (plainCompositePair fnret rab).isOk = false := by
  cases fnret with
  | noneE => rfl
  | typeE ty => exact absurd rfl (hty ty)
  | setOfE ty => rfl
  | iteratedE n => rfl
  | triggerE => rfl

theorem setOfCompositePair_err (fnret : PgExternReturnEntity) (rab : Bool)
    (hty : ∀ ty, fnret ≠ .setOfE ty) :
    (setOfCompositePair fnret rab).isOk = false := by
  cases fnret with
  | noneE => rfl
  | typeE ty => rfl
  | setOfE ty => exact absurd rfl (hty ty)
  | iteratedE n => rfl
  | triggerE => rfl

theorem renderReturnsResolved_err (context : PgxSql) (type_name : String)
    (graph_index : Nat) (pair : Except RenderFailure (String × String))
    (h : pair.isOk = false) :
    (renderReturnsResolved context type_name graph_index pair).isOk = false := by
  cases pair with
  | error f => rfl
  | ok p => simp [Except.isOk, Except.toBool] at h

theorem renderReturns_mismatch (context : PgxSql) (self : PgExternEntity)
    (rv : FunctionMetadataRet) (rab : Bool)
    (hret : self.metadata.retval = some rv)
    (hmm : (rv.return_sql = .ok (.plain (.composite rab)) ∧
              ∀ ty, self.fn_return ≠ .typeE ty)
         ∨ (rv.return_sql = .ok (.setOfV (.composite rab)) ∧
              ∀ ty, self.fn_return ≠ .setOfE ty)) :
    (renderReturns context self).isOk = false := by
  unfold renderReturns
  rw [hret]
  simp only [renderReturnsCore]
  cases hres : context.resolve rv.type_id rv.type_name with
  | none => rfl
  | some gi =>
    apply renderReturnsResolved_err
    rcases hmm with ⟨hsql, hty⟩ | ⟨hsql, hty⟩
    · rw [hsql]
      simp only [returnVariantPair]
      exact plainCompositePair_err self.fn_return rab hty
    · rw [hsql]
      simp only [returnVariantPair]
      exact setOfCompositePair_err self.fn_return rab hty

theorem renderOperator_ok_arity (context : PgxSql) (self : PgExternEntity)
    (op : PgOperatorEntity)
    (h : (renderOperator context self op).isOk = true) :
    2 ≤ self.metadata.arguments.length := by
  unfold renderOperator at h
  split at h
  · simp [Except.isOk, Except.toBool] at h
  · split at h
    · simp [Except.isOk, Except.toBool] at h
    · split at h
      · simp [Except.isOk, Except.toBool] at h
      · split at h
        · simp [Except.isOk, Except.toBool] at h
        · rename_i right_arg hq1
          have h1 : 1 < self.metadata.arguments.length :=
            (List.get?_eq_some.mp hq1).1
          omega

/- ## Part 6: shared concrete inputs for the claim witnesses and
   counterexamples. -/

/-- A rendering context with every type resolvable and empty schema
prefixes. -/
def ctxOp : PgxSql :=
  { selfIndex := 0, internal_type := 99, module_pathname := "/lib/ext.so",
    resolve := fun _ _ => some 1, schemaPrefixFor := fun _ => "" }

/-- A realized argument with a statically mapped SQL type. -/
def mappedArg (n : Nat) (tn : String) : FunctionMetadataArg :=
  { type_id := n, type_name := tn, optional := false, variadic := false,
    argument_sql := .ok (.mapped tn) }

/-- A declared argument with no default and no composite name. -/
def plainFnArg (p : String) : PgExternArgumentEntity :=
  { pattern := p, used_ty := { default := none, composite_type := none } }

/-- Operator metadata with an equals operator name and no optional
clauses. -/
def opMetaEq : PgOperatorEntity :=
  { opname := some "=", commutator := none, negator := none,
    restrict := none, join := none, hashes := false, merges := false }

/-- A Rust i32 path type. -/
def i32Ty : SynType := .typePath [.mk "i32" .nonePA]

/- ## Part 7: the claims. -/

/- ### C1 -/

/-- Entity whose realized return variant is Plain(Mapped) while the
classified shape is SetOf: a structural mismatch the renderer accepts. -/
def entC1 : PgExternEntity :=
  { name := "f", unaliased_name := "f", module_path := "m", full_path := "m::f",
    metadata :=
      { arguments := [],
        retval := some
          { type_id := 5, type_name := "i32",
            return_sql := .ok (.plain (.mapped "integer")) } },
    fn_args := [], fn_return := .setOfE { composite_type := none },
    schema := none, file := "lib.rs", line := 10, extern_attrs := [],
    search_path := none, operator := none }

/-- C1 counterexample: for the entity entC1 the classified return shape
(SetOf) disagrees in structural class with the realized return variant
(Plain, with a mapped SQL type), yet to_sql succeeds: the mismatch check
is not performed for mapped realized types, so the claim as stated is
false. -/
theorem C1_counterexample :
    entC1.fn_return = PgExternReturnEntity.setOfE { composite_type := none } ∧
    entC1.metadata.retval = some
      { type_id := 5, type_name := "i32",
        return_sql := .ok (.plain (.mapped "integer")) } ∧
    (to_sql ctxOp entC1).isOk = true := ⟨rfl, rfl, rfl⟩

/-- C1 (amended): when the realized return variant is composite — 
Plain(Composite) or SetOf(Composite) — any classified fn_return of a
different structural class (not Type for a plain value, not SetOf for a
set) makes to_sql fail hard, emitting nothing; mapped realized variants
never consult the classified shape. -/
theorem C1_composite_return_shape_mismatch_fails (context : PgxSql)
    (self : PgExternEntity) (rv : FunctionMetadataRet) (rab : Bool)
    (hret : self.metadata.retval = some rv)
    (hmm : (rv.return_sql = .ok (.plain (.composite rab)) ∧
              ∀ ty, self.fn_return ≠ .typeE ty)
         ∨ (rv.return_sql = .ok (.setOfV (.composite rab)) ∧
              ∀ ty, self.fn_return ≠ .setOfE ty)) :
    (to_sql context self).isOk = false :=
  renderReturns_err_to_sql context self
    (renderReturns_mismatch context self rv rab hret hmm)

/-- Entity whose realized return variant is Plain(Composite) while the
classified shape is None. -/
def entC1w : PgExternEntity :=
  { entC1 with
    metadata :=
      { arguments := [],
        retval := some
          { type_id := 5, type_name := "MyRow",
            return_sql := .ok (.plain (.composite false)) } },
    fn_return := .noneE }

/-- C1 witness: the amended mismatch theorem applied at a concrete
composite-realized entity whose classified shape is None. -/
theorem C1_witness : (to_sql ctxOp entC1w).isOk = false :=
  C1_composite_return_shape_mismatch_fails ctxOp entC1w
    { type_id := 5, type_name := "MyRow",
      return_sql := .ok (.plain (.composite false)) } false rfl
    (Or.inl ⟨rfl, fun ty h => by cases h⟩)

/- ### C2 -/

/-- C2: the strict upgrade of to_sql adds the Strict attribute exactly
once when it is absent, no argument is optional and no argument has the
internal placeholder type id; it leaves the attribute list untouched when
Strict is already present or some argument is optional or
internal-typed; and in every case it either keeps the list unchanged or
appends Strict, never removing anything. -/
theorem C2_strict_inference (internal_type : Nat) (attrs : List ExternArgs)
    (args : List FunctionMetadataArg) :
    (ExternArgs.strict ∈ attrs →
      strictUpgradeAttrs internal_type attrs args = attrs)
  ∧ ((∃ a ∈ args, a.optional = true ∨ a.type_id = internal_type) →
      strictUpgradeAttrs internal_type attrs args = attrs)
  ∧ (ExternArgs.strict ∉ attrs →
      (∀ a ∈ args, a.optional = false ∧ a.type_id ≠ internal_type) →
      List.count ExternArgs.strict (strictUpgradeAttrs internal_type attrs args) = 1)
  ∧ (strictUpgradeAttrs internal_type attrs args = attrs ∨
     strictUpgradeAttrs internal_type attrs args = attrs ++ [ExternArgs.strict]) := by
  refine ⟨?_, ?_, ?_, ?_⟩
  · intro h
    have hany : attrs.any (fun i => i = ExternArgs.strict) = true :=
      List.any_eq_true.mpr ⟨ExternArgs.strict, h, by simp⟩
    have hc : ((!(attrs.any (fun i => i = ExternArgs.strict)))
        && args.all (fun arg => !(arg.optional || arg.type_id = internal_type)))
        = false := by
      rw [hany]; rfl
    unfold strictUpgradeAttrs
    rw [hc, if_neg Bool.false_ne_true]
  · intro hex
    have hall : args.all
        (fun arg => !(arg.optional || arg.type_id = internal_type)) = false := by
      rw [Bool.eq_false_iff]
      intro hTrue
      rcases hex with ⟨a, hmem, hcase⟩
      have := List.all_eq_true.mp hTrue a hmem
      rcases hcase with hopt | hid
      · simp [hopt] at this
      · simp [hid] at this
    have hc : ((!(attrs.any (fun i => i = ExternArgs.strict)))
        && args.all (fun arg => !(arg.optional || arg.type_id = internal_type)))
        = false := by
      rw [hall]; exact Bool.and_false _
    unfold strictUpgradeAttrs
    rw [hc, if_neg Bool.false_ne_true]
  · intro h1 h2
    have hany : attrs.any (fun i => i = ExternArgs.strict) = false := by
      rw [Bool.eq_false_iff]
      intro hTrue
      rcases List.any_eq_true.mp hTrue with ⟨a, hmem, ha⟩
      simp at ha
      subst ha
      exact h1 hmem
    have hall : args.all
        (fun arg => !(arg.optional || arg.type_id = internal_type)) = true := by
      rw [List.all_eq_true]
      intro a hmem
      obtain ⟨ho, hi⟩ := h2 a hmem
      simp [ho, hi]
    have hc : ((!(attrs.any (fun i => i = ExternArgs.strict)))
        && args.all (fun arg => !(arg.optional || arg.type_id = internal_type)))
        = true := by
      rw [hany, hall]; rfl
    have hcount0 : List.count ExternArgs.strict attrs = 0 :=
      List.count_eq_zero.mpr h1
    unfold strictUpgradeAttrs
    rw [hc, if_pos rfl, List.count_append, hcount0]
    rfl
  · unfold strictUpgradeAttrs
    cases hc : ((!(attrs.any (fun i => i = ExternArgs.strict)))
        && args.all (fun arg => !(arg.optional || arg.type_id = internal_type))) with
    | false => rw [if_neg Bool.false_ne_true]; left; rfl
    | true => rw [if_pos rfl]; right; rfl

/-- C2 witness: the strict-inference theorem applied to a callable with
one mapped, non-optional, non-internal argument and no prior Strict. -/
theorem C2_witness :
    List.count ExternArgs.strict
      (strictUpgradeAttrs 99 [] [mappedArg 1 "integer"]) = 1 :=
  (C2_strict_inference 99 [] [mappedArg 1 "integer"]).2.2.1 (by simp)
    (by
      intro a ha
      rcases List.mem_singleton.mp ha with rfl
      exact ⟨rfl, by decide⟩)

/- ### C3 -/

/-- An Iterator trait path with an Item binding, used to show the silent
default. -/
def iterSegsC3 : List PathSegment :=
  [.mk "Iterator" (.angleBracketed
    [.binding "Item" (.typePath [.mk "i32" .nonePA])])]

/-- C3 counterexample: an impl type whose first bound is a lifetime —
an unrecognized bound kind — and whose second bound is a genuine
Iterator bound classifies silently as Returning::None instead of
failing, so the claim as stated is false. -/
theorem C3_counterexample :
    classifyReturn (some (.implTrait [.lifetimeB "a", .traitB iterSegsC3]))
      = .ok .noneRet := rfl

/-- C3 (amended): a trait-first impl or dyn return type whose trait is
not Iterator is a hard panic-class classification failure, and an
unhandled top-level return type fails with the unknown-return-type
error; however an impl or dyn type whose first bound is not a trait
bound (an unrecognized bound kind) silently classifies as
Returning::None rather than failing. -/
theorem C3_unsupported_return_classification_fails (p : List PathSegment)
    (rest : List TypeParamBound) (tag lt : String) :
    ((p.getLast?).map segIdent ≠ some "Iterator" →
      isPanicFailure (classifyReturn (some (.implTrait (.traitB p :: rest)))) = true ∧
      isPanicFailure (classifyReturn (some (.traitObject (.traitB p :: rest)))) = true)
    ∧ classifyReturn (some (.otherType tag)) =
        .error (.errF ("Got unknown return type: " ++ tag))
    ∧ classifyReturn (some (.implTrait (.lifetimeB lt :: rest))) = .ok .noneRet
    ∧ classifyReturn (some (.traitObject (.lifetimeB lt :: rest))) = .ok .noneRet := by
  refine ⟨?_, rfl, ?_, ?_⟩
  · intro h
    have h' : ((anonSegList p).getLast?).map segIdent ≠ some "Iterator" := by
      rw [getLast_segIdent_anonSegList]; exact h
    constructor
    · simp only [classifyReturn, anonType, anonBoundList, anonBound,
        parse_impl_trait, List.head?]
      exact parse_trait_bound_panic _ h'
    · simp only [classifyReturn, anonType, anonBoundList, anonBound,
        parse_dyn_trait, List.head?]
      exact parse_trait_bound_panic _ h'
  · simp [classifyReturn, anonType, anonBoundList, anonBound, parse_impl_trait]
  · simp [classifyReturn, anonType, anonBoundList, anonBound, parse_dyn_trait]

/-- C3 witness: the amended theorem applied to an IntoIterator trait
bound, whose classification is a panic-class failure. -/
theorem C3_witness :
    isPanicFailure (classifyReturn (some (.implTrait
      [.traitB [.mk "IntoIterator" .nonePA]]))) = true :=
  ((C3_unsupported_return_classification_fails
    [.mk "IntoIterator" .nonePA] [] "x" "a").1 (by decide)).1

/- ### C4 -/

/-- C4: whenever parse_type_tuple classifies a tuple as Iterated, the
column list has exactly the length and order of the element list, and
each column satisfies the per-element contract: a name-macro element
yields its declared type and name, a composite_type element yields the
row-handle type with no name, any other element yields the element type
with no name — in particular the classifier never synthesizes a column
name. -/
theorem C4_iterated_columns_preserved (elems : List SynType)
    (items : List ReturningIteratedItem)
    (h : parse_type_tuple elems = .ok (.iteratedRet items)) :
    items.length = elems.length ∧
    ∀ i (hi : i < elems.length) (hi' : i < items.length),
      columnMatchesElem (elems.get ⟨i, hi⟩) (items.get ⟨i, hi'⟩) := by
  unfold parse_type_tuple at h
  cases hP : parseTupleItems elems with
  | error f => rw [hP] at h; exact absurd h (by simp)
  | ok its =>
    rw [hP] at h
    simp only [Except.ok.injEq, Returning.iteratedRet.injEq] at h
    subst h
    obtain ⟨hlen, hall⟩ := parseTupleItems_ok_spec elems its hP
    exact ⟨hlen, fun i hi hi' => parseTupleItem_ok_spec _ _ (hall i hi hi')⟩

/-- A name-macro tuple element declaring the column dog_age of type
i32. -/
def namedElemC4 : SynType := .macCall ["name"] (.nameBody "dog_age" i32Ty)

/-- The column produced for namedElemC4. -/
def namedItemC4 : ReturningIteratedItem := ⟨i32Ty, some "dog_age", none⟩

/-- The column produced for a plain i32 element. -/
def plainItemC4 : ReturningIteratedItem := ⟨i32Ty, none, none⟩

/-- C4 witness: the column theorem applied to the concrete tuple
(name!(dog_age, i32), i32). -/
theorem C4_witness :
    ([namedItemC4, plainItemC4] : List ReturningIteratedItem).length
        = ([namedElemC4, i32Ty] : List SynType).length ∧
    columnMatchesElem namedElemC4 namedItemC4 := by
  have h := C4_iterated_columns_preserved [namedElemC4, i32Ty]
    [namedItemC4, plainItemC4] rfl
  exact ⟨h.1, h.2 0 (by norm_num) (by norm_num)⟩

/- ### C5 -/

/-- A callable with three mapped arguments and operator metadata. -/
def entC5 : PgExternEntity :=
  { name := "op3", unaliased_name := "op3", module_path := "m",
    full_path := "m::op3",
    metadata :=
      { arguments := [mappedArg 1 "integer", mappedArg 1 "integer",
          mappedArg 1 "integer"],
        retval := none },
    fn_args := [plainFnArg "a", plainFnArg "b", plainFnArg "c"],
    fn_return := .noneE, schema := none, file := "lib.rs", line := 1,
    extern_attrs := [], search_path := none, operator := some opMetaEq }

/-- C5 counterexample: a callable with operator metadata and three
arguments renders successfully — the renderer never rejects an argument
count above two, so the claim as stated is false. -/
theorem C5_counterexample :
    entC5.operator = some opMetaEq ∧
    entC5.metadata.arguments.length = 3 ∧
    (to_sql ctxOp entC5).isOk = true := ⟨rfl, rfl, rfl⟩

/-- C5 (amended): a callable with operator metadata renders successfully
only if it has at least two arguments — positions 0 and 1 must exist, so
fewer than two arguments is a hard failure — but an argument count above
two is not rejected. -/
theorem C5_operator_requires_two_argument_positions (context : PgxSql)
    (self : PgExternEntity) (op : PgOperatorEntity)
    (hop : self.operator = some op)
    (hok : (to_sql context self).isOk = true) :
    2 ≤ self.metadata.arguments.length := by
  unfold to_sql at hok
  split at hok
  · simp [Except.isOk, Except.toBool] at hok
  · split at hok
    · simp [Except.isOk, Except.toBool] at hok
    · rw [hop] at hok
      simp only [withOperator] at hok
      split at hok
      · simp [Except.isOk, Except.toBool] at hok
      · rename_i os heq2
        exact renderOperator_ok_arity context self op (by rw [heq2]; rfl)

/-- The two-argument variant of entC5. -/
def entC5w : PgExternEntity :=
  { entC5 with
    metadata := { arguments := [mappedArg 1 "integer", mappedArg 1 "integer"],
                  retval := none },
    fn_args := [plainFnArg "a", plainFnArg "b"] }

/-- C5 witness: the arity theorem applied to a rendering two-argument
operator callable. -/
theorem C5_witness : 2 ≤ entC5w.metadata.arguments.length :=
  C5_operator_requires_two_argument_positions ctxOp entC5w opMetaEq rfl rfl

/- ### C6 -/

/-- The realized right operand of entC6: a composite type without array
brackets. -/
def rightMetaC6 : FunctionMetadataArg :=
  { type_id := 2, type_name := "B", optional := false, variadic := false,
    argument_sql := .ok (.composite false) }

/-- Operator callable whose right argument is composite (no array
brackets); its two declared arguments carry distinct composite names at
positions 0 and 1. -/
def entC6 : PgExternEntity :=
  { name := "opc", unaliased_name := "opc", module_path := "m",
    full_path := "m::opc",
    metadata :=
      { arguments := [mappedArg 1 "integer", rightMetaC6],
        retval := none },
    fn_args :=
      [{ pattern := "a",
         used_ty := { default := none, composite_type := some "type_a" } },
       { pattern := "b",
         used_ty := { default := none, composite_type := some "type_b" } }],
    fn_return := .noneE, schema := none, file := "lib.rs", line := 2,
    extern_attrs := [], search_path := none, operator := some opMetaEq }

/-- C6: evaluation at the failing input.  The right operand of the
CREATE OPERATOR statement is the realized argument at position 1 and is
composite without array brackets, the declared composite name at
position 1 is type_b, yet the rendered right-operand SQL is type_a — the
source reads the composite name from fn_args position 0 in this branch,
against the spec's position 1 — and to_sql happily renders with it. -/
theorem C6_right_composite_name_from_position_zero :
    entC6.metadata.arguments.get? 1 = some rightMetaC6 ∧
    rightMetaC6.argument_sql = .ok (.composite false) ∧
    (entC6.fn_args.get? 0).map (fun fa => fa.used_ty.composite_type)
      = some (some "type_a") ∧
    (entC6.fn_args.get? 1).map (fun fa => fa.used_ty.composite_type)
      = some (some "type_b") ∧
    rightArgSql entC6 rightMetaC6 = .ok "type_a" ∧
    (to_sql ctxOp entC6).isOk = true := ⟨rfl, rfl, rfl, rfl, rfl, rfl⟩

/- ### C7 -/

/-- A realized argument whose SQL variant is Skip. -/
def skipArgC7 : FunctionMetadataArg :=
  { type_id := 3, type_name := "pgx::Internal", optional := false,
    variadic := false, argument_sql := .ok .skip }

/-- A callable whose last argument is skipped. -/
def entC7 : PgExternEntity :=
  { name := "fskip", unaliased_name := "fskip", module_path := "m",
    full_path := "m::fskip",
    metadata :=
      { arguments := [mappedArg 1 "integer", skipArgC7],
        retval := none },
    fn_args := [plainFnArg "a", plainFnArg "b"],
    fn_return := .noneE, schema := none, file := "lib.rs", line := 3,
    extern_attrs := [], search_path := none, operator := none }

/-- C7: evaluation at the failing input.  With two arguments whose last
is skipped, the single emitted argument line still carries the comma
separator (the comma is decided by the position among all arguments, not
among the emitted ones), so the rendered argument list ends in a comma
after the last emitted argument, against the claim. -/
theorem C7_trailing_comma_before_skipped_last_argument :
    entC7.metadata.arguments.length = 2 ∧
    entC7.metadata.arguments.get? 1 = some skipArgC7 ∧
    skipArgC7.argument_sql = .ok SqlVariant.skip ∧
    renderArguments ctxOp entC7 = .ok "\n\t\"a\" integer, /* integer */\n" :=
  ⟨rfl, rfl, rfl, rfl⟩

/- ### C8 -/

/-- C8: the trigger generator emits a registration entity whose
generated function bears the internals prefix and which carries the
function name as a literal together with the file, line, module-path and
concatenated full-path values of the expansion site; and a wrapper named
with the _wrapper suffix whose body obtains the trigger context from the
call info, invokes the user callable and converts its row result into a
datum, turning each of the three possible failures into a process-fatal
panic — the outcome type has no recoverable error constructor. -/
theorem C8_trigger_entity_and_wrapper (t : PgTriggerDecl)
    {Fcinfo Handle Tuple Datum E : Type}
    (from_fcinfo : Fcinfo → Option Handle) (userFn : Handle → Except E Tuple)
    (into_datum : Tuple → Option Datum) (fcinfo : Fcinfo) :
    (entity_tokens t).entityFnName = "__pgx_internals_trigger_" ++ t.funcIdent
  ∧ (entity_tokens t).function_name = .lit t.funcIdent
  ∧ (entity_tokens t).module_path = .modulePathMacroCall
  ∧ (entity_tokens t).full_path = .modulePathConcat t.funcIdent
  ∧ (entity_tokens t).file = .fileMacroCall
  ∧ (entity_tokens t).line = .lineMacroCall
  ∧ wrapper_tokens_name t = t.funcIdent ++ "_wrapper"
  ∧ (from_fcinfo fcinfo = none →
      wrapperRun from_fcinfo userFn into_datum fcinfo
        = .panicAbort "PgTrigger::from_fcinfo failed")
  ∧ (∀ h e, from_fcinfo fcinfo = some h → userFn h = .error e →
      wrapperRun from_fcinfo userFn into_datum fcinfo
        = .panicAbort "Trigger function panic")
  ∧ (∀ h tup, from_fcinfo fcinfo = some h → userFn h = .ok tup →
      into_datum tup = none →
      wrapperRun from_fcinfo userFn into_datum fcinfo
        = .panicAbort "Failed to turn trigger function return value into Datum")
  ∧ (∀ h tup d, from_fcinfo fcinfo = some h → userFn h = .ok tup →
      into_datum tup = some d →
      wrapperRun from_fcinfo userFn into_datum fcinfo = .okDatum d) := by
  refine ⟨rfl, rfl, rfl, rfl, rfl, rfl, rfl, ?_, ?_, ?_, ?_⟩
  · intro h0
    simp [wrapperRun, h0]
  · intro h e h1 h2
    simp [wrapperRun, h1, h2]
  · intro h tup h1 h2 h3
    simp [wrapperRun, h1, h2, h3]
  · intro h tup d h1 h2 h3
    simp [wrapperRun, h1, h2, h3]

/-- A concrete trigger declaration. -/
def declC8 : PgTriggerDecl := { funcIdent := "f", to_sql_config := { content := none } }

/-- A call-info reader that never finds a trigger context. -/
def fcinfoNoneC8 : Nat → Option Nat := fun _ => none

/-- A user trigger callable returning a fixed tuple. -/
def userFnC8 : Nat → Except String Nat := fun _ => .ok 0

/-- A datum conversion that always succeeds. -/
def intoDatumC8 : Nat → Option Nat := fun _ => some 0

/-- C8 witness: the wrapper panics on a missing trigger context, and the
registration entity name carries the internals prefix, at concrete
inputs. -/
theorem C8_witness :
    wrapperRun fcinfoNoneC8 userFnC8 intoDatumC8 0
      = .panicAbort "PgTrigger::from_fcinfo failed" ∧
    (entity_tokens declC8).entityFnName = "__pgx_internals_trigger_f" := by
  have h := C8_trigger_entity_and_wrapper declC8 fcinfoNoneC8 userFnC8
    intoDatumC8 0
  exact ⟨h.2.2.2.2.2.2.2.1 rfl, h.1⟩

/- ### C9 -/

/-- C9: the empty tuple type classifies as Returning::Type carrying the
unit type itself — not Returning::None and not an Iterated with zero
columns — and a tuple classifies as Iterated only when it is
non-empty. -/
theorem C9_empty_tuple_classifies_as_type :
    classifyReturn (some (.tuple [])) = .ok (.tyRet (.tuple []) none) ∧
    ∀ elems items,
      classifyReturn (some (.tuple elems)) = .ok (.iteratedRet items) →
      elems ≠ [] := by
  refine ⟨rfl, ?_⟩
  intro elems items h hne
  subst hne
  simp [classifyReturn, anonType, anonTypeList] at h

/-- C9 witness: the second half of the empty-tuple theorem applied to a
concrete one-element tuple that classifies as Iterated. -/
theorem C9_witness : ([i32Ty] : List SynType) ≠ [] :=
  C9_empty_tuple_classifies_as_type.2 [i32Ty] [plainItemC4] rfl

/- ### C10 -/

/-- C10: PgTrigger::new rejects a declaration carrying two or more sql
attributes; and when the declaration carries exactly one sql attribute
whose content is present, any successfully constructed trigger stores
that content with every occurrence of the placeholder replaced by the
wrapper name and a newline appended. -/
theorem C10_trigger_sql_attribute_unique_and_rewritten (env : TriggerEnv)
    (funcIdent : String) (attrs : List PgTriggerAttribute)
    (cfg : ToSqlConfig) (c : String) :
    (2 ≤ List.countP isSqlAttr attrs →
      (PgTrigger.new env funcIdent attrs).isOk = false)
  ∧ (List.countP isSqlAttr attrs = 1 →
      PgTriggerAttribute.sqlAttr cfg ∈ attrs →
      cfg.content = some c →
      ∀ t, PgTrigger.new env funcIdent attrs = .ok t →
        t.to_sql_config.content
          = some (rustReplace c "@FUNCTION_NAME@"
              (funcIdent ++ "_wrapper") ++ "\n")) := by
  constructor
  · intro h2
    unfold PgTrigger.new
    cases hF : findSqlConfig attrs none with
    | error e => rfl
    | ok f =>
      exfalso
      have hbad := findSqlConfig_two_errs attrs h2
      rw [hF] at hbad
      simp [Except.isOk, Except.toBool] at hbad
  · intro h1 hm hc t ht
    unfold PgTrigger.new at ht
    rw [findSqlConfig_unique attrs cfg h1 hm] at ht
    simp only [Option.map_some', Option.getD_some, hc] at ht
    set cfg2 : ToSqlConfig :=
      { content := some (rewriteTriggerContent funcIdent c) } with hcfg2
    cases ho : env.overridesDefault cfg2 with
    | true =>
      rw [ho] at ht
      simp only [Bool.not_true] at ht
      rw [if_neg (by simp)] at ht
      simp only [Except.ok.injEq] at ht
      subst ht
      rfl
    | false =>
      rw [ho] at ht
      simp only [Bool.not_false] at ht
      rw [if_pos trivial] at ht
      cases hI : env.identAcceptable funcIdent with
      | error e => rw [hI] at ht; cases ht
      | ok u =>
        rw [hI] at ht
        simp only [Except.ok.injEq] at ht
        subst ht
        rfl

/-- Trigger environment with an always-acceptable identifier check and a
config override test keyed on content presence. -/
def envC10 : TriggerEnv :=
  { defaultConfig := { content := none },
    overridesDefault := fun cfg => cfg.content.isSome,
    identAcceptable := fun _ => .ok () }

/-- The sql attribute content before rewriting. -/
def cfgC10 : ToSqlConfig :=
  { content := some "EXECUTE PROCEDURE @FUNCTION_NAME@()" }

/-- A declaration with one sql attribute among others. -/
def attrsC10 : List PgTriggerAttribute := [.otherTriggerAttr, .sqlAttr cfgC10]

/-- The trigger stored for attrsC10. -/
def declC10 : PgTriggerDecl :=
  { funcIdent := "trig",
    to_sql_config := { content := some "EXECUTE PROCEDURE trig_wrapper()\n" } }

/-- C10 witness: the uniqueness-and-rewriting theorem applied to a
concrete declaration with one sql attribute, whose stored content has
the placeholder replaced and the newline appended. -/
theorem C10_witness :
    declC10.to_sql_config.content
      = some (rustReplace "EXECUTE PROCEDURE @FUNCTION_NAME@()"
          "@FUNCTION_NAME@" ("trig" ++ "_wrapper") ++ "\n") :=
  (C10_trigger_sql_attribute_unique_and_rewritten envC10 "trig" attrsC10
    cfgC10 "EXECUTE PROCEDURE @FUNCTION_NAME@()").2 (by decide)
    (by simp [attrsC10]) rfl declC10 (by rfl)
